import Mathlib

/-!
Verification of the plan-negotiation core of the `agentic-data-analyst`
repository (files `data_loader.py`, `ai_analysis.py`, `state.py`) against its
natural-language specification.

The Python code is shallowly embedded: pandas dataframes become an explicit
`DataFrame` value (a list of named, typed columns plus a row count); JSON
plan dictionaries become structures whose fields are `Option`-valued, with
`none` standing for an absent key (a JSON `null` value for a string-typed
field is likewise modelled as `none`); the external LLM call is a parameter
of each embedded operation, an `LLMResult` describing the four observable
shapes of the interaction (the call raised; the response contained no
`{...}` span; the span failed to parse; the span parsed to a JSON object).
Functions that mutate the session state thread it explicitly and return the
updated state.
-/

/-- Pandas dtypes that can arise for a loaded column. `str(dtype)` of these is
given by `Dtype.toStr` below. -/
inductive Dtype where
  | int64
  | float64
  | boolDt
  | object
  | category
  | datetime64
deriving DecidableEq, Repr

/-- `str(df[col].dtype)` for each modelled dtype. -/
def Dtype.toStr : Dtype → String
  | .int64 => "int64"
  | .float64 => "float64"
  | .boolDt => "bool"
  | .object => "object"
  | .category => "category"
  | .datetime64 => "datetime64[ns]"

/-- Membership in `df.select_dtypes(include="number")`: integer and float
dtypes.  Pandas excludes `bool` and datetimes from `"number"`. -/
def Dtype.isNumber : Dtype → Bool
  | .int64 => true
  | .float64 => true
  | _ => false

/-- `pd.api.types.is_numeric_dtype`: true for integer, float and bool
dtypes. -/
def Dtype.isNumericDtype : Dtype → Bool
  | .int64 => true
  | .float64 => true
  | .boolDt => true
  | _ => false

/-- Membership in `df.select_dtypes(include=["object", "category"])`. -/
def Dtype.isObjectOrCategory : Dtype → Bool
  | .object => true
  | .category => true
  | _ => false

/-- A cell of a dataframe column: missing (`NaN`/`None`), a numeric value
(reals modelled as rationals), or a string value. -/
inductive Cell where
  | missing
  | num (q : Rat)
  | str (s : String)
deriving DecidableEq, Repr

/-- `pd.isnull` on a cell. -/
def Cell.isMissing : Cell → Bool
  | .missing => true
  | _ => false

/-- A named, dtyped pandas column with its cells. -/
structure Column where
  name : String
  dtype : Dtype
  values : List Cell
deriving DecidableEq, Repr

/-- A pandas dataframe: ordered columns plus the index length `df.shape[0]`
(equal to every column's number of cells for a well-formed frame). -/
structure DataFrame where
  cols : List Column
  nrows : Nat
deriving DecidableEq, Repr

/-- `df.columns` as a list of names (`x in df.columns` is membership here). -/
def DataFrame.columnNames (df : DataFrame) : List String :=
  df.cols.map Column.name

/-- `df[name]` column lookup: pandas returns the column of that name
(dataframes loaded from CSV/Excel have unique column names). -/
def DataFrame.findCol (df : DataFrame) (name : String) : Option Column :=
  df.cols.find? (fun c => c.name == name)

/-- `df.select_dtypes(include="number").columns.tolist()`. -/
def numericColNames (df : DataFrame) : List String :=
  (df.cols.filter (fun c => c.dtype.isNumber)).map Column.name

/-- `df.select_dtypes(exclude="number").columns.tolist()`. -/
def nonNumericColNames (df : DataFrame) : List String :=
  (df.cols.filter (fun c => !c.dtype.isNumber)).map Column.name

/-- `df.select_dtypes(include=["object", "category"]).columns.tolist()`. -/
def objCatColNames (df : DataFrame) : List String :=
  (df.cols.filter (fun c => c.dtype.isObjectOrCategory)).map Column.name

/-- The numeric values of a column's cells, skipping missing ones
(pandas aggregations use `skipna=True` by default). -/
def numericVals (values : List Cell) : List Rat :=
  values.filterMap (fun v => match v with | .num q => some q | _ => none)

/-- `float(series.mean())` over the non-missing values; `none` models the
`NaN` produced when every value is missing. -/
def colMean (values : List Cell) : Option Rat :=
  match numericVals values with
  | [] => none
  | q :: qs => some ((q :: qs).sum / (q :: qs).length)

/-- `float(series.min())` over the non-missing values (`none` for `NaN`). -/
def colMin (values : List Cell) : Option Rat :=
  match numericVals values with
  | [] => none
  | q :: qs => some (qs.foldl min q)

/-- `float(series.max())` over the non-missing values (`none` for `NaN`). -/
def colMax (values : List Cell) : Option Rat :=
  match numericVals values with
  | [] => none
  | q :: qs => some (qs.foldl max q)

/-- One entry of the summary's `"columns"` list in `data_loader.py`. -/
structure ColumnSummary where
  name : String
  dtype : String
  num_missing : Nat
  mean : Option Rat
  min : Option Rat
  max : Option Rat
deriving DecidableEq, Repr

/-- The summary dictionary assembled by `summarize_dataset`
(`data_loader.py` lines 25-46). -/
structure DatasetSummary where
  num_rows : Nat
  num_columns : Nat
  columns : List ColumnSummary
  numeric_columns : List String
  categorical_columns : List String
deriving DecidableEq, Repr

/-- `data_loader.summarize_dataset`.  The Python body builds the summary
dictionary and computes the numeric/categorical column lists, but the
function ends with `pass` and has no `return` statement, so it returns
`None` on every input; the assembled dictionary is dead code. -/
def summarize_dataset (df : DataFrame) : Option DatasetSummary :=
  let summary : DatasetSummary :=
    { num_rows := df.nrows
      num_columns := df.cols.length
      columns := df.cols.map (fun col =>
        let isIF := col.dtype.toStr == "int64" || col.dtype.toStr == "float64"
        { name := col.name
          dtype := col.dtype.toStr
          num_missing := (col.values.filter Cell.isMissing).length
          mean := if isIF then colMean col.values else none
          min := if isIF then colMin col.values else none
          max := if isIF then colMax col.values else none })
      numeric_columns := numericColNames df
      categorical_columns := objCatColNames df }
  -- The Python function falls off the end (`pass`): `summary` is discarded.
  let _ := summary
  none

/-- A chart dictionary as proposed by the model or the fallback planner
(keys `type`, `x_axis`, `y_axis`, `title`, `purpose`; `none` = key absent). -/
structure ChartSpec where
  type : Option String
  x_axis : Option String
  y_axis : Option String
  title : Option String
  purpose : Option String
deriving DecidableEq, Repr

/-- A KPI dictionary (keys `label`, `column`, `aggregation`, `unit`,
`format`; `none` = key absent, and also models an explicit JSON `null`
such as the fallback planner's `"format": None`). -/
structure KpiSpec where
  label : Option String
  column : Option String
  aggregation : Option String
  unit : Option String
  format : Option String
deriving DecidableEq, Repr

/-- The `analysis_summary` dictionary attached by `create_dashboard_plan`. -/
structure AnalysisSummary where
  user_question : Option String
  approach : String
  reasoning : List String
deriving DecidableEq, Repr

/-- A dashboard-plan dictionary (the generator's, the reviser's and the
fallback planner's common shape, and also any JSON object parsed out of a
model response: each field is `none` when the key is absent). -/
structure DashboardPlan where
  template_name : Option String
  domain : Option String
  confidence : Option Rat
  visualizations : Option (List ChartSpec)
  kpis : Option (List KpiSpec)
  analysis_summary : Option AnalysisSummary
deriving DecidableEq, Repr

/-- The JSON object with no keys at all (what `json.loads` yields for
`"{}"`); the only parsed object that is falsy in Python. -/
def DashboardPlan.emptyObj : DashboardPlan :=
  { template_name := none, domain := none, confidence := none
    visualizations := none, kpis := none, analysis_summary := none }

/-- The observable outcomes of one `ollama.chat` interaction together with
the JSON-extraction step applied to its response (`ai_analysis.py` lines
151-167 and 281-293): the call raised; the call returned but
`re.search(r"\{.*\}", raw, re.DOTALL)` found no span; the span failed
`json.loads`; the span parsed to a JSON object. -/
inductive LLMResult where
  | err
  | noJson
  | badJson
  | ok (p : DashboardPlan)
deriving DecidableEq, Repr

/-- `x in df.columns` where `x` came from `dict.get` (so may be `None`,
which is never a member). -/
def optMem (o : Option String) (names : List String) : Bool :=
  match o with
  | some s => names.contains s
  | none => false

/-- The Validation Filter's chart keep-condition (`ai_analysis.py` line 182
and lines 300-302): both `x_axis` and `y_axis` name existing columns. -/
def chartKeep (df : DataFrame) (c : ChartSpec) : Bool :=
  optMem c.x_axis df.columnNames && optMem c.y_axis df.columnNames

/-- `pd.api.types.is_numeric_dtype(df[col])` guarded by the earlier
`col in df.columns` check: look the column up by name and test its dtype. -/
def isNumericCol (df : DataFrame) (o : Option String) : Bool :=
  match o with
  | some s =>
    match df.findCol s with
    | some c => c.dtype.isNumericDtype
    | none => false
  | none => false

/-- The Validation Filter's KPI keep-condition (`ai_analysis.py` lines
188-196 and 309-317): the column exists, and the aggregation is `"count"`
or the column's dtype is numeric. -/
def kpiKeep (df : DataFrame) (k : KpiSpec) : Bool :=
  optMem k.column df.columnNames &&
    (k.aggregation == some "count" || isNumericCol df k.column)

/-- The chart half of the Validation Filter, identical in
`create_dashboard_plan` (lines 180-184) and `revise_dashboard_plan`
(lines 298-304). -/
def filterCharts (df : DataFrame) (charts : List ChartSpec) : List ChartSpec :=
  charts.filter (chartKeep df)

/-- The KPI half of the Validation Filter, identical in
`create_dashboard_plan` (lines 186-200) and `revise_dashboard_plan`
(lines 307-322): drop KPIs failing the keep-condition and default a
missing `unit` to `""` (`kpi.setdefault("unit", "")`). -/
def filterKpis (df : DataFrame) (kpis : List KpiSpec) : List KpiSpec :=
  kpis.filterMap (fun k =>
    if kpiKeep df k then some { k with unit := some (k.unit.getD "") } else none)

/-- `ai_analysis.dynamic_fallback`: the Deterministic Fallback Planner. -/
def dynamic_fallback (df : DataFrame) : DashboardPlan :=
  let numeric_cols := numericColNames df
  let categorical_cols := nonNumericColNames df
  let visualizations : List ChartSpec :=
    match categorical_cols, numeric_cols with
    | c :: cs, y :: _ =>
      ((c :: cs).take 3).map (fun cat_col =>
        { type := some "bar"
          x_axis := some cat_col
          y_axis := some y
          title := some s!"{y} by {cat_col}"
          purpose := some s!"Shows {y} distribution by {cat_col}" })
    | [], y :: ys =>
      ((y :: ys).take 3).map (fun num_col =>
        { type := some "histogram"
          x_axis := some num_col
          y_axis := some num_col
          title := some s!"Distribution of {num_col}"
          purpose := some s!"Histogram of {num_col}" })
    | _, [] => []
  let kpis : List KpiSpec :=
    (numeric_cols.take 3).map (fun col =>
      { label := some s!"Total {col}"
        column := some col
        aggregation := some "sum"
        unit := some ""
        format := none })
  { template_name := some "Dynamic Fallback Dashboard"
    domain := some "Generic"
    confidence := some 0
    visualizations := some visualizations
    kpis := some kpis
    analysis_summary := none }

/-- `state.AnalystState`, the per-session mutable memory, with the
dataclass's defaults.  `dataset_summary` defaults to the falsy empty dict,
modelled as `none`; `last_rendered_dashboard` is `Optional[Any]` and is
only ever stored, never read. -/
structure AnalystState where
  df : Option DataFrame := none
  dataset_summary : Option DatasetSummary := none
  user_goal : Option String := none
  assumptions : List String := []
  unanswered_questions : List String := []
  awaiting_clarification : Bool := false
  dashboard_plan : Option DashboardPlan := none
  last_rendered_dashboard : Option DashboardPlan := none
  goal_completed : Bool := false
deriving DecidableEq, Repr

/-- Python's rendering of a possibly-`None` string inside an f-string:
`None` prints as `"None"`. -/
def pyStr (o : Option String) : String :=
  match o with
  | some s => s
  | none => "None"

/-- One reasoning line per chart (`ai_analysis.py` lines 221-224):
`purpose = chart.get("purpose") or chart.get("title", "")`, then
`f"Chart '{chart.get('title')}' was included to {purpose.lower()}."`. -/
def chartReason (c : ChartSpec) : String :=
  let p0 := c.purpose.getD ""
  let p1 := if p0 = "" then c.title.getD "" else p0
  let t := pyStr c.title
  let pl := p1.toLower
  s!"Chart \x27{t}\x27 was included to {pl}."

/-- One reasoning line per KPI (`ai_analysis.py` lines 228-232). -/
def kpiReason (k : KpiSpec) : String :=
  let l := pyStr k.label
  let a := pyStr k.aggregation
  let c := pyStr k.column
  s!"KPI \x27{l}\x27 summarizes the {a} of \x27{c}\x27, providing a high-level indicator."

/-- The fixed `approach` sentence of the generator's analysis summary. -/
def approachText : String :=
  "The dataset was summarized to understand available columns and data types. KPIs were selected to capture key aggregates, while charts were chosen to highlight trends and relationships relevant to the user\x27s goal."

/-- The `analysis_summary` dictionary built by `create_dashboard_plan`
(lines 211-232): the user goal, the fixed approach sentence, and one
reasoning line per chart followed by one per KPI. -/
def mkAnalysisSummary (st : AnalystState) (p : DashboardPlan) : AnalysisSummary :=
  { user_question := st.user_goal
    approach := approachText
    reasoning :=
      ((p.visualizations.getD []).map chartReason) ++
        ((p.kpis.getD []).map kpiReason) }

/-- The empty-plan placeholder substituted when the parsed model output is
missing or lacks a `"visualizations"` key (`ai_analysis.py` lines 170-177). -/
def placeholderPlan : DashboardPlan :=
  { template_name := some "Fallback Dashboard"
    domain := some "Dataset"
    confidence := some 0.9
    visualizations := some []
    kpis := some []
    analysis_summary := none }

/-- Lines 170-177 of `ai_analysis.py`: `if not ai_output or
"visualizations" not in ai_output`, substitute the placeholder.  A parsed
JSON object is falsy exactly when it has no keys. -/
def effectiveOutput (p : DashboardPlan) : DashboardPlan :=
  if p = DashboardPlan.emptyObj ∨ p.visualizations = none then placeholderPlan
  else p

/-- The generator's filtered chart list for a parsed model object. -/
def genFilteredCharts (df : DataFrame) (p : DashboardPlan) : List ChartSpec :=
  filterCharts df ((effectiveOutput p).visualizations.getD [])

/-- The generator's filtered KPI list for a parsed model object. -/
def genFilteredKpis (df : DataFrame) (p : DashboardPlan) : List KpiSpec :=
  filterKpis df ((effectiveOutput p).kpis.getD [])

/-- `ai_analysis.create_dashboard_plan`.  The model interaction is the
`mr` parameter.  Every exception inside the `try` block — the model call
raising, `json.loads` failing, and the explicit `raise ValueError` when a
filtered list is empty (a missing/falsy/`visualizations`-less parse also
lands there, via the placeholder's empty lists) — is caught and replaced
by `dynamic_fallback df`; the function then attaches the analysis summary
and returns, so the embedding is a total function. -/
def create_dashboard_plan (df : DataFrame) (st : AnalystState) (mr : LLMResult) :
    DashboardPlan :=
  let ai_output : DashboardPlan :=
    match mr with
    | .err | .noJson | .badJson => dynamic_fallback df
    | .ok p =>
      let fc := genFilteredCharts df p
      let fk := genFilteredKpis df p
      if fc = [] ∨ fk = [] then dynamic_fallback df
      else { effectiveOutput p with visualizations := some fc, kpis := some fk }
  { ai_output with analysis_summary := some (mkAnalysisSummary st ai_output) }

/-- `ai_analysis.revise_dashboard_plan`.  Returns the plan the Python
function returns (`None` is possible: the safety check returns
`existing_plan` unmodified, which may itself be `None`) paired with the
session state as it stands after the call; the source assigns to no
attribute of `state`, so the state is returned as received. -/
def revise_dashboard_plan (st : AnalystState) (user_msg : String)
    (mr : LLMResult) : Option DashboardPlan × AnalystState :=
  match st.df, st.dashboard_plan with
  | none, ep => (ep, st)
  | some _, none => (none, st)
  | some df, some existing_plan =>
    match mr with
    | .err | .noJson | .badJson => (some existing_plan, st)
    | .ok revised =>
      let valid_visuals := filterCharts df (revised.visualizations.getD [])
      let valid_kpis := filterKpis df (revised.kpis.getD [])
      if valid_visuals = [] ∧ valid_kpis = [] then (some existing_plan, st)
      else
        (some { revised with visualizations := some valid_visuals
                             kpis := some valid_kpis }, st)

/-- The observable outcomes of the clarification model call: the call
returned raw text, or it raised. -/
inductive ClarifyResult where
  | ok (raw : String)
  | err
deriving DecidableEq, Repr

/-- `raw.strip().split("\n")[0]`: the first line of the trimmed response. -/
def firstLine (raw : String) : String :=
  (raw.trim.splitOn "\n").headD ""

/-- `ai_analysis.ask_clarification` (the active definition at lines
49-95).  A non-empty unanswered-questions queue is popped at its head and
returned before anything else happens; otherwise the summary cache is
filled if falsy, and the model is consulted, appending the new question to
the queue on success and returning a fixed fallback question (with no
queue mutation) on failure. -/
def ask_clarification (st : AnalystState) (user_msg : String)
    (df : DataFrame) (mr : ClarifyResult) : String × AnalystState :=
  match st.unanswered_questions with
  | q :: rest => (q, { st with unanswered_questions := rest })
  | [] =>
    let st1 :=
      match st.dataset_summary with
      | none => { st with dataset_summary := summarize_dataset df }
      | some _ => st
    match mr with
    | .ok raw =>
      let question := firstLine raw
      (question,
        { st1 with unanswered_questions := st1.unanswered_questions ++ [question] })
    | .err =>
      ("Could you clarify exactly what you want to know about the dataset?", st1)

/-- The dataframe from `test_app.sample_df`: four numeric columns and one
object (categorical) column. -/
def titanicDf : DataFrame :=
  { cols :=
      [{ name := "Age", dtype := .int64
         values := [.num 22, .num 38, .num 26, .num 35] },
       { name := "Fare", dtype := .float64
         values := [.num 7.25, .num 71.83, .num 7.92, .num 53.1] },
       { name := "Survived", dtype := .int64
         values := [.num 0, .num 1, .num 1, .num 1] },
       { name := "PassengerId", dtype := .int64
         values := [.num 1, .num 2, .num 3, .num 4] },
       { name := "Sex", dtype := .object
         values := [.str "male", .str "female", .str "female", .str "male"] }]
    nrows := 4 }

/-- A dataset with a single categorical (object-dtype) column and no
numeric column. -/
def catOnlyDf : DataFrame :=
  { cols := [{ name := "City", dtype := .object, values := [.str "NYC"] }]
    nrows := 1 }

/-- Both axis-membership checks of a kept chart and the column/aggregation
checks of a kept KPI are recorded by this predicate for C4. -/
def planRefsOk (df : DataFrame) (p : DashboardPlan) : Bool :=
  (p.visualizations.getD []).all (chartKeep df) &&
    (p.kpis.getD []).all (fun k => optMem k.column df.columnNames)

theorem optMem_iff {o : Option String} {names : List String} :
    optMem o names = true ↔ ∃ s, o = some s ∧ s ∈ names := by
  cases o with
  | none => simp [optMem]
  | some s => simp [optMem, List.elem_iff]

theorem mem_numericColNames {df : DataFrame} {s : String}
    (h : s ∈ numericColNames df) : s ∈ df.columnNames := by
  simp only [numericColNames, List.mem_map, List.mem_filter] at h
  obtain ⟨c, ⟨hc, _⟩, rfl⟩ := h
  exact List.mem_map_of_mem _ hc

theorem mem_nonNumericColNames {df : DataFrame} {s : String}
    (h : s ∈ nonNumericColNames df) : s ∈ df.columnNames := by
  simp only [nonNumericColNames, List.mem_map, List.mem_filter] at h
  obtain ⟨c, ⟨hc, _⟩, rfl⟩ := h
  exact List.mem_map_of_mem _ hc

theorem isNumericDtype_of_isNumber {d : Dtype} (h : d.isNumber = true) :
    d.isNumericDtype = true := by
  cases d <;> simp_all [Dtype.isNumber, Dtype.isNumericDtype]

/-- With pairwise-distinct column names, name lookup recovers the column
itself. -/
theorem findCol_eq_of_nodup {cols : List Column}
    (hnd : (cols.map Column.name).Nodup) {c : Column} (hc : c ∈ cols) :
    cols.find? (fun c' => c'.name == c.name) = some c := by
  induction cols with
  | nil => cases hc
  | cons a rest ih =>
    rcases List.nodup_cons.mp hnd with ⟨hna, hndr⟩
    rcases List.mem_cons.mp hc with rfl | hcr
    · simp [List.find?]
    · have hne : (a.name == c.name) = false := by
        rw [beq_eq_false_iff_ne]
        intro heq
        exact hna (heq ▸ List.mem_map_of_mem Column.name hcr)
      simp [List.find?, hne]
      exact ih hndr hcr

/-- Every chart in a filtered chart list satisfies the chart
keep-condition. -/
theorem chartKeep_of_mem_filterCharts {df : DataFrame} {l : List ChartSpec}
    {c : ChartSpec} (h : c ∈ filterCharts df l) : chartKeep df c = true :=
  (List.mem_filter.mp h).2

/-- Every KPI in a filtered KPI list satisfies the KPI keep-condition (the
`unit` defaulting touches neither its column nor its aggregation). -/
theorem kpiKeep_of_mem_filterKpis {df : DataFrame} {l : List KpiSpec}
    {k : KpiSpec} (h : k ∈ filterKpis df l) : kpiKeep df k = true := by
  simp only [filterKpis, List.mem_filterMap] at h
  obtain ⟨k0, _, hk0⟩ := h
  by_cases hkeep : kpiKeep df k0 = true
  · rw [if_pos hkeep] at hk0
    cases hk0
    exact hkeep
  · rw [if_neg hkeep] at hk0
    cases hk0

theorem all_chartKeep_filterCharts (df : DataFrame) (l : List ChartSpec) :
    (filterCharts df l).all (chartKeep df) = true :=
  List.all_eq_true.mpr (fun _ hc => chartKeep_of_mem_filterCharts hc)

theorem all_colOk_filterKpis (df : DataFrame) (l : List KpiSpec) :
    (filterKpis df l).all (fun k => optMem k.column df.columnNames) = true := by
  refine List.all_eq_true.mpr (fun k hk => ?_)
  have hkeep := kpiKeep_of_mem_filterKpis hk
  simp only [kpiKeep, Bool.and_eq_true] at hkeep
  exact hkeep.1

/-- Every chart the fallback planner emits has both axes naming dataset
columns. -/
theorem dynamic_fallback_charts_keep (df : DataFrame) :
    ∀ c ∈ (dynamic_fallback df).visualizations.getD [], chartKeep df c = true := by
  intro c hc
  unfold dynamic_fallback at hc
  rcases hcat : nonNumericColNames df with _ | ⟨c0, cs⟩ <;>
    rcases hnum : numericColNames df with _ | ⟨y0, ys⟩ <;>
      simp only [hcat, hnum, Option.getD_some, List.mem_map] at hc
  · cases hc
  · obtain ⟨num_col, hmem, rfl⟩ := hc
    have hin : num_col ∈ numericColNames df :=
      hnum ▸ List.mem_of_mem_take hmem
    have := mem_numericColNames hin
    simp [chartKeep, optMem, List.elem_iff, this]
  · cases hc
  · obtain ⟨cat_col, hmem, rfl⟩ := hc
    have hinc : cat_col ∈ nonNumericColNames df :=
      hcat ▸ List.mem_of_mem_take hmem
    have hiny : y0 ∈ numericColNames df := hnum ▸ List.mem_cons_self y0 ys
    have h1 := mem_nonNumericColNames hinc
    have h2 := mem_numericColNames hiny
    simp [chartKeep, optMem, List.elem_iff, h1, h2]

/-- Every KPI the fallback planner emits names a dataset column. -/
theorem dynamic_fallback_kpis_colOk (df : DataFrame) :
    ∀ k ∈ (dynamic_fallback df).kpis.getD [],
      optMem k.column df.columnNames = true := by
  intro k hk
  unfold dynamic_fallback at hk
  simp only [Option.getD_some, List.mem_map] at hk
  obtain ⟨col, hmem, rfl⟩ := hk
  have hin : col ∈ numericColNames df := List.mem_of_mem_take hmem
  simp [optMem, List.elem_iff, mem_numericColNames hin]

/-- With distinct column names, every KPI the fallback planner emits also
passes the numeric-dtype check (its column is one of the `"number"`-dtype
columns, and those dtypes satisfy `is_numeric_dtype`). -/
theorem dynamic_fallback_kpis_keep (df : DataFrame)
    (hnd : df.columnNames.Nodup) :
    ∀ k ∈ (dynamic_fallback df).kpis.getD [], kpiKeep df k = true := by
  intro k hk
  have hcol := dynamic_fallback_kpis_colOk df k hk
  unfold dynamic_fallback at hk
  simp only [Option.getD_some, List.mem_map] at hk
  obtain ⟨col, hmem, rfl⟩ := hk
  have hin : col ∈ numericColNames df := List.mem_of_mem_take hmem
  simp only [numericColNames, List.mem_map, List.mem_filter] at hin
  obtain ⟨c, ⟨hc, hnumc⟩, rfl⟩ := hin
  have hfind : df.cols.find? (fun c' => c'.name == c.name) = some c :=
    findCol_eq_of_nodup hnd hc
  have hnum : isNumericCol df (some c.name) = true := by
    simp [isNumericCol, DataFrame.findCol, hfind, isNumericDtype_of_isNumber hnumc]
  simp only [kpiKeep] at hcol ⊢
  simp_all

/-- C1: the claim that `summarize_dataset` returns a `DatasetSummary` value
("not nothing") fails on the code: the Python body assembles the summary
dictionary but ends with `pass` and has no `return`, so the function
returns `None` on the test suite's sample dataframe — and on every
dataset. -/
theorem C1_summarizer_returns_none :
    summarize_dataset titanicDf = none ∧ ∀ df, summarize_dataset df = none :=
  ⟨rfl, fun _ => rfl⟩

/-- C2, counterexample: `catOnlyDf` has one categorical column (`object`
dtype, so categorical under both the Summarizer's and the fallback
planner's partition) and no numeric column, yet `dynamic_fallback` returns
a plan with zero charts and zero KPIs — refuting "a wholly empty result
occurs only when the dataset has zero numeric and zero categorical
columns". -/
theorem C2_counterexample :
    objCatColNames catOnlyDf = ["City"] ∧
    nonNumericColNames catOnlyDf = ["City"] ∧
    (dynamic_fallback catOnlyDf).visualizations = some [] ∧
    (dynamic_fallback catOnlyDf).kpis = some [] :=
  ⟨rfl, rfl, rfl, rfl⟩

/-- C2, amended: the Deterministic Fallback Planner's result is wholly
empty exactly when the dataset has zero numeric columns; in particular any
dataset with at least one numeric column yields a non-empty plan, while
categorical columns alone yield nothing. -/
theorem C2_fallback_empty_iff_no_numeric (df : DataFrame) :
    ((dynamic_fallback df).visualizations = some [] ∧
      (dynamic_fallback df).kpis = some []) ↔ numericColNames df = [] := by
  unfold dynamic_fallback
  rcases hcat : nonNumericColNames df with _ | ⟨c0, cs⟩ <;>
    rcases hnum : numericColNames df with _ | ⟨y0, ys⟩ <;>
      simp [hcat, hnum]

/-- C7: whenever the revision's model interaction fails — the call raised,
the response contained no JSON object, or the JSON failed to parse — the
Plan Reviser returns the stored prior plan unmodified (the embedding is a
total function, so no exception reaches the caller). -/
theorem C7_revision_failure_returns_prior :
    (∀ st msg, (revise_dashboard_plan st msg .err).1 = st.dashboard_plan) ∧
    (∀ st msg, (revise_dashboard_plan st msg .noJson).1 = st.dashboard_plan) ∧
    (∀ st msg, (revise_dashboard_plan st msg .badJson).1 = st.dashboard_plan) := by
  refine ⟨?_, ?_, ?_⟩ <;>
    · intro st msg
      rcases hdf : st.df with _ | df <;>
        rcases hdp : st.dashboard_plan with _ | P <;>
          simp [revise_dashboard_plan, hdf, hdp]

/-- C10: on every execution path the Plan Reviser leaves the session state
it received untouched: the state component of its result is the input
state, every field included. -/
theorem C10_reviser_mutates_no_state (st : AnalystState) (msg : String)
    (mr : LLMResult) : (revise_dashboard_plan st msg mr).2 = st := by
  rcases hdf : st.df with _ | df <;>
    rcases hdp : st.dashboard_plan with _ | P <;>
      rcases mr with _ | _ | _ | p <;>
        simp [revise_dashboard_plan, hdf, hdp] <;>
          split <;> rfl

/-- Reduction of the reviser when the dataset and a prior plan are present
and the model interaction failed. -/
theorem revise_fail_eq {st : AnalystState} {df : DataFrame}
    {P : DashboardPlan} {msg : String} {mr : LLMResult}
    (h1 : st.df = some df) (h2 : st.dashboard_plan = some P)
    (h3 : mr = .err ∨ mr = .noJson ∨ mr = .badJson) :
    revise_dashboard_plan st msg mr = (some P, st) := by
  rcases h3 with rfl | rfl | rfl <;>
    · unfold revise_dashboard_plan
      rw [h1, h2]

/-- Reduction of the reviser when the dataset and a prior plan are present
and the model interaction produced a parsed object. -/
theorem revise_ok_eq {st : AnalystState} {df : DataFrame}
    {P : DashboardPlan} {msg : String} {p : DashboardPlan}
    (h1 : st.df = some df) (h2 : st.dashboard_plan = some P) :
    revise_dashboard_plan st msg (.ok p) =
      if filterCharts df (p.visualizations.getD []) = [] ∧
          filterKpis df (p.kpis.getD []) = [] then (some P, st)
      else
        (some { p with
            visualizations := some (filterCharts df (p.visualizations.getD []))
            kpis := some (filterKpis df (p.kpis.getD [])) }, st) := by
  unfold revise_dashboard_plan
  rw [h1, h2]

/-- C3: for every dataset and state, whenever the generator's model call
errors, no JSON object can be extracted or parsed from the response, or
either post-filter list is empty, `create_dashboard_plan` returns the
Deterministic Fallback Planner's plan — template name "Dynamic Fallback
Dashboard", confidence 0.0, and exactly the fallback's charts and KPIs —
instead of the model's plan; the embedding is a total function, so no
exception reaches the caller on these paths. -/
theorem C3_generator_failure_falls_back (df : DataFrame) (st : AnalystState)
    (mr : LLMResult)
    (h : mr = .err ∨ mr = .noJson ∨ mr = .badJson ∨
      ∃ p, mr = .ok p ∧
        (genFilteredCharts df p = [] ∨ genFilteredKpis df p = [])) :
    (create_dashboard_plan df st mr).template_name =
        some "Dynamic Fallback Dashboard" ∧
    (create_dashboard_plan df st mr).confidence = some 0 ∧
    (create_dashboard_plan df st mr).visualizations =
        (dynamic_fallback df).visualizations ∧
    (create_dashboard_plan df st mr).kpis = (dynamic_fallback df).kpis := by
  have hres : create_dashboard_plan df st mr =
      { dynamic_fallback df with
        analysis_summary := some (mkAnalysisSummary st (dynamic_fallback df)) } := by
    rcases h with rfl | rfl | rfl | ⟨p, rfl, hemp⟩
    · rfl
    · rfl
    · rfl
    · simp only [create_dashboard_plan]
      rw [if_pos hemp]
  rw [hres]
  exact ⟨rfl, rfl, rfl, rfl⟩

theorem C3_witness :
    (create_dashboard_plan titanicDf {} .err).template_name =
        some "Dynamic Fallback Dashboard" ∧
    (create_dashboard_plan titanicDf {} .err).confidence = some 0 ∧
    (create_dashboard_plan titanicDf {} .err).visualizations =
        (dynamic_fallback titanicDf).visualizations ∧
    (create_dashboard_plan titanicDf {} .err).kpis =
        (dynamic_fallback titanicDf).kpis :=
  C3_generator_failure_falls_back titanicDf {} .err (Or.inl rfl)

/-- C6: with a dataset and a prior plan `P` in the state, if the model's
revision filters to an empty chart list and an empty KPI list, the Plan
Reviser returns `P` unchanged. -/
theorem C6_empty_revision_keeps_prior (st : AnalystState) (msg : String)
    (p : DashboardPlan) (df : DataFrame) (P : DashboardPlan)
    (h1 : st.df = some df) (h2 : st.dashboard_plan = some P)
    (hv : filterCharts df (p.visualizations.getD []) = [])
    (hk : filterKpis df (p.kpis.getD []) = []) :
    (revise_dashboard_plan st msg (.ok p)).1 = some P := by
  rw [revise_ok_eq h1 h2, if_pos ⟨hv, hk⟩]

theorem C6_witness :
    (revise_dashboard_plan
      { df := some titanicDf, dashboard_plan := some (dynamic_fallback titanicDf) }
      "remove everything" (.ok DashboardPlan.emptyObj)).1 =
      some (dynamic_fallback titanicDf) :=
  C6_empty_revision_keeps_prior
    { df := some titanicDf, dashboard_plan := some (dynamic_fallback titanicDf) }
    "remove everything" DashboardPlan.emptyObj titanicDf
    (dynamic_fallback titanicDf) rfl rfl rfl rfl

theorem planRefsOk_set_summary (df : DataFrame) (p : DashboardPlan)
    (a : Option AnalysisSummary) :
    planRefsOk df { p with analysis_summary := a } = planRefsOk df p := rfl

theorem planRefsOk_dynamic_fallback (df : DataFrame) :
    planRefsOk df (dynamic_fallback df) = true := by
  simp only [planRefsOk, Bool.and_eq_true]
  exact ⟨List.all_eq_true.mpr (dynamic_fallback_charts_keep df),
    List.all_eq_true.mpr (dynamic_fallback_kpis_colOk df)⟩

/-- C4: validation soundness.  Every plan the generator returns — for any
model interaction — references only existing columns in its charts' axes
and its KPIs' columns; and the reviser preserves that property: whatever
it returns from a column-sound prior plan (the revision path is filtered,
the keep-prior paths return the sound prior plan) is column-sound. -/
theorem C4_validation_soundness :
    (∀ df st mr, planRefsOk df (create_dashboard_plan df st mr) = true) ∧
    (∀ st msg mr df P Q, st.df = some df → st.dashboard_plan = some P →
      planRefsOk df P = true → (revise_dashboard_plan st msg mr).1 = some Q →
      planRefsOk df Q = true) := by
  constructor
  · intro df st mr
    rcases mr with _ | _ | _ | p
    · exact planRefsOk_dynamic_fallback df
    · exact planRefsOk_dynamic_fallback df
    · exact planRefsOk_dynamic_fallback df
    · by_cases hc : genFilteredCharts df p = [] ∨ genFilteredKpis df p = []
      · have he : create_dashboard_plan df st (.ok p) =
            { dynamic_fallback df with
              analysis_summary :=
                some (mkAnalysisSummary st (dynamic_fallback df)) } := by
          simp only [create_dashboard_plan]
          rw [if_pos hc]
        rw [he, planRefsOk_set_summary]
        exact planRefsOk_dynamic_fallback df
      · have he : create_dashboard_plan df st (.ok p) =
            { effectiveOutput p with
              visualizations := some (genFilteredCharts df p)
              kpis := some (genFilteredKpis df p)
              analysis_summary :=
                some (mkAnalysisSummary st
                  { effectiveOutput p with
                    visualizations := some (genFilteredCharts df p)
                    kpis := some (genFilteredKpis df p) }) } := by
          simp only [create_dashboard_plan]
          rw [if_neg hc]
        rw [he]
        simp only [planRefsOk, Option.getD_some, Bool.and_eq_true]
        exact ⟨all_chartKeep_filterCharts df _, all_colOk_filterKpis df _⟩
  · intro st msg mr df P Q h1 h2 hP hQ
    rcases mr with _ | _ | _ | p
    · rw [revise_fail_eq h1 h2 (Or.inl rfl)] at hQ
      obtain rfl := Option.some.inj hQ
      exact hP
    · rw [revise_fail_eq h1 h2 (Or.inr (Or.inl rfl))] at hQ
      obtain rfl := Option.some.inj hQ
      exact hP
    · rw [revise_fail_eq h1 h2 (Or.inr (Or.inr rfl))] at hQ
      obtain rfl := Option.some.inj hQ
      exact hP
    · rw [revise_ok_eq h1 h2] at hQ
      by_cases hc : filterCharts df (p.visualizations.getD []) = [] ∧
          filterKpis df (p.kpis.getD []) = []
      · rw [if_pos hc] at hQ
        obtain rfl := Option.some.inj hQ
        exact hP
      · rw [if_neg hc] at hQ
        obtain rfl := Option.some.inj hQ
        simp only [planRefsOk, Option.getD_some, Bool.and_eq_true]
        exact ⟨all_chartKeep_filterCharts df _, all_colOk_filterKpis df _⟩

theorem C4_witness :
    planRefsOk titanicDf (create_dashboard_plan titanicDf {} .err) = true ∧
    planRefsOk titanicDf (dynamic_fallback titanicDf) = true :=
  ⟨C4_validation_soundness.1 titanicDf {} .err,
   C4_validation_soundness.2
    { df := some titanicDf, dashboard_plan := some (dynamic_fallback titanicDf) }
    "msg" .err titanicDf (dynamic_fallback titanicDf) (dynamic_fallback titanicDf)
    rfl rfl (by decide) (by decide)⟩

/-- C5: KPI type safety of the Validation Filter shared by generator and
reviser — every KPI surviving `filterKpis` whose aggregation is not
`"count"` references a column of numeric dtype; in particular the KPI
`{column: "Sex", aggregation: "sum"}` over the Titanic-style dataset
(where `Sex` is categorical) is removed. -/
theorem C5_kpi_type_safety :
    (∀ df kpis k, k ∈ filterKpis df kpis → k.aggregation ≠ some "count" →
      isNumericCol df k.column = true) ∧
    filterKpis titanicDf
      [{ label := some "Total Sex", column := some "Sex",
         aggregation := some "sum", unit := none, format := none }] = [] := by
  constructor
  · intro df kpis k hk hagg
    have hkeep := kpiKeep_of_mem_filterKpis hk
    simp only [kpiKeep, Bool.and_eq_true, Bool.or_eq_true] at hkeep
    rcases hkeep with ⟨_, haggc | hnum⟩
    · exact absurd (by simpa using haggc) hagg
    · exact hnum
  · rfl

theorem C5_witness :
    isNumericCol titanicDf (some "Fare") = true :=
  C5_kpi_type_safety.1 titanicDf
    [{ label := some "Avg Fare", column := some "Fare",
       aggregation := some "sum", unit := none, format := none }]
    { label := some "Avg Fare", column := some "Fare",
      aggregation := some "sum", unit := some "", format := none }
    (by decide) (by decide)

/-- C8: with a non-empty unanswered-questions queue, the Clarification
Generator pops and returns the head without contacting the model (the
result is the same for every model interaction `mr`); from a queue
`[q1, q2, ...]`, two successive calls return `q1` then `q2`. -/
theorem C8_clarification_fifo :
    (∀ st msg df mr q rest, st.unanswered_questions = q :: rest →
      ask_clarification st msg df mr =
        (q, { st with unanswered_questions := rest })) ∧
    (∀ st msg1 msg2 df1 df2 mr1 mr2 q1 q2 rest,
      st.unanswered_questions = q1 :: q2 :: rest →
      (ask_clarification st msg1 df1 mr1).1 = q1 ∧
      (ask_clarification (ask_clarification st msg1 df1 mr1).2
        msg2 df2 mr2).1 = q2) := by
  have hpop : ∀ (st : AnalystState) (msg : String) (df : DataFrame)
      (mr : ClarifyResult) (q : String) (rest : List String),
      st.unanswered_questions = q :: rest →
      ask_clarification st msg df mr =
        (q, { st with unanswered_questions := rest }) := by
    intro st msg df mr q rest h
    unfold ask_clarification
    rw [h]
  refine ⟨hpop, ?_⟩
  intro st msg1 msg2 df1 df2 mr1 mr2 q1 q2 rest h
  rw [hpop st msg1 df1 mr1 q1 (q2 :: rest) h]
  exact ⟨rfl, by rw [hpop _ msg2 df2 mr2 q2 rest rfl]⟩

theorem C8_witness :
    (ask_clarification { unanswered_questions := ["q1", "q2"] }
      "m1" titanicDf .err).1 = "q1" ∧
    (ask_clarification
      (ask_clarification { unanswered_questions := ["q1", "q2"] }
        "m1" titanicDf .err).2 "m2" titanicDf .err).1 = "q2" :=
  C8_clarification_fifo.2 { unanswered_questions := ["q1", "q2"] }
    "m1" "m2" titanicDf titanicDf .err .err "q1" "q2" [] rfl

/-- C9: the Deterministic Fallback Planner's plan satisfies the Validation
Filter's keep-conditions by construction (given the pairwise-distinct
column names a loaded dataframe has): every chart's axes name dataset
columns and every KPI passes the column-existence and numeric-dtype
checks, without the plan ever passing through the filter. -/
theorem C9_fallback_satisfies_filter (df : DataFrame)
    (h : df.columnNames.Nodup) :
    ((dynamic_fallback df).visualizations.getD []).all (chartKeep df) = true ∧
    ((dynamic_fallback df).kpis.getD []).all (kpiKeep df) = true :=
  ⟨List.all_eq_true.mpr (dynamic_fallback_charts_keep df),
   List.all_eq_true.mpr (dynamic_fallback_kpis_keep df h)⟩

theorem C9_witness :
    ((dynamic_fallback titanicDf).visualizations.getD []).all
      (chartKeep titanicDf) = true ∧
    ((dynamic_fallback titanicDf).kpis.getD []).all (kpiKeep titanicDf) = true :=
  C9_fallback_satisfies_filter titanicDf (by decide)
